import Mathlib

/-!
# AutoVideoPlayer: visibility-driven playback controller

A shallow embedding of `src/AutoVideoPlayer.plugin.js` (class `AutoplayVideoFiles`).

* The document is an element tree; an element is referred to by its path from the root
  (the list of child indices).  `closest`, `querySelector`, `firstElementChild` are the
  DOM queries the plugin uses, over the three selector shapes that occur in the source.
* Mutable element properties the plugin reads or writes (`paused`, `ended`, `muted`,
  `style.display`, the bounding rectangle) live in the `World` next to the tree.
* The plugin object (`this.settings`, `this.manuallyPausedVideos`, `this.finishedVideos`)
  is part of the `World` as well.
* Every operation returns the new `World` and the list of side effects it issued
  (`Event`s): simulated clicks, `video.play()`, `video.pause()`, `preventDefault`,
  `stopPropagation`.  What the host page does in reaction to them is outside the plugin
  and is not modelled.
-/

namespace AutoVideoPlayer

/-! ## Strings -/

/-- Substring test on character lists: `pat` occurs somewhere in the list. -/
def containsSub (pat : List Char) : List Char → Bool
  | [] => pat.isEmpty
  | c :: cs => pat.isPrefixOf (c :: cs) || containsSub pat cs

/-- The test of `[class*="pat"]` and of an unanchored literal regular expression `/pat/`. -/
def classHas (cls pat : String) : Bool := containsSub pat.data cls.data

/-! ## Document -/

/-- Attributes of an element that the selectors of the plugin look at. -/
structure Attrs where
  /-- The element type in lower case, as type selectors match it. -/
  localName : String
  /-- The `class` attribute, which `[class*="..."]` selectors match. -/
  classAttr : String := ""
  ariaLabel : Option String := none
  /-- Whether the element is an SVG element: its `className` property is then an
  `SVGAnimatedString` object instead of a string. -/
  isSVG : Bool := false
deriving DecidableEq, Repr

/-- Element tree (element children only, in document order). -/
inductive Dom where
  | node (a : Attrs) (kids : List Dom)

/-- An element handle: the child indices leading from the root to the element. -/
abbrev Path := List Nat

/-- Attributes of the root of a subtree. -/
def Dom.attrs : Dom → Attrs
  | .node a _ => a

/-- Children of the root of a subtree. -/
def Dom.kids : Dom → List Dom
  | .node _ k => k

/-- Subtree at a path, if the path names an element. -/
def Dom.at? : Dom → Path → Option Dom
  | d, [] => some d
  | .node _ kids, i :: p =>
    match kids.get? i with
    | some k => k.at? p
    | none => none

mutual
/-- Paths (relative to the subtree root) of all elements of a subtree, in document order,
the root first. -/
def Dom.subtree : Dom → List Path
  | .node _ kids => [] :: Dom.forest kids 0
/-- Paths of all elements in a list of sibling subtrees, the first sibling having index `i`. -/
def Dom.forest : List Dom → Nat → List Path
  | [], _ => []
  | k :: ks, i => (k.subtree.map (fun q => i :: q)) ++ Dom.forest ks (i + 1)
end

/-- The selector shapes used by the plugin. -/
inductive Selector where
  /-- Selector `[class*="s"]`. -/
  | classSub (s : String)
  /-- Selector `[class*="s"][aria-label="label"]`. -/
  | classSubAria (s label : String)
  /-- Type selector such as `button`, `input`, `video`. -/
  | tag (t : String)
deriving DecidableEq, Repr

/-- Whether an element with the given attributes matches the selector. -/
def Selector.test : Selector → Attrs → Bool
  | .classSub s, a => classHas a.classAttr s
  | .classSubAria s label, a => classHas a.classAttr s && (a.ariaLabel == some label)
  | .tag t, a => a.localName == t

/-- Whether the element at path `p` exists and matches the selector. -/
def matchesAt (doc : Dom) (sel : Selector) (p : Path) : Bool :=
  match doc.at? p with
  | some n => sel.test n.attrs
  | none => false

/-- DOM `el.closest(sel)`: the element itself or its nearest ancestor matching `sel`. -/
def closest (doc : Dom) (el : Path) (sel : Selector) : Option Path :=
  el.inits.reverse.find? (matchesAt doc sel)

/-- DOM `base.querySelectorAll(sel)`: matching proper descendants of `base`, document order. -/
def querySelectorAll (doc : Dom) (base : Path) (sel : Selector) : List Path :=
  match doc.at? base with
  | some n => ((Dom.forest n.kids 0).map (fun q => base ++ q)).filter (matchesAt doc sel)
  | none => []

/-- DOM `base.querySelector(sel)`: first matching proper descendant of `base`. -/
def querySelector (doc : Dom) (base : Path) (sel : Selector) : Option Path :=
  (querySelectorAll doc base sel).head?

/-- DOM `document.querySelectorAll(sel)`: all matching elements of the document. -/
def documentQuerySelectorAll (doc : Dom) (sel : Selector) : List Path :=
  doc.subtree.filter (matchesAt doc sel)

/-- DOM `el.firstElementChild`. -/
def firstElementChild (doc : Dom) (el : Path) : Option Path :=
  match doc.at? el with
  | some (.node _ (_ :: _)) => some (el ++ [0])
  | _ => none

/-- The `class` attribute of the element at a path (empty for a missing element or a
missing attribute). -/
def classAttrAt (doc : Dom) (el : Path) : String :=
  match doc.at? el with
  | some n => n.attrs.classAttr
  | none => ""

/-- Value of the DOM property `el.className`: a string reflecting the `class` attribute
on an HTML element, an `SVGAnimatedString` object (with that string as `baseVal`) on an
SVG element. -/
inductive ClassName where
  /-- A string value. -/
  | string (s : String)
  /-- An `SVGAnimatedString` object. -/
  | animated (baseVal : String)
deriving DecidableEq, Repr

/-- JavaScript truthiness of a `className` value: a string is truthy when it is not
empty, an object always. -/
def ClassName.truthy : ClassName → Bool
  | .string s => decide (s ≠ "")
  | .animated _ => true

/-- The string `RegExp.prototype.test` converts a `className` value to: the string
itself, or `[object SVGAnimatedString]` for the object. -/
def ClassName.toStr : ClassName → String
  | .string s => s
  | .animated _ => "[object SVGAnimatedString]"

/-- DOM property `el.className` of the element at a path. -/
def classNameAt (doc : Dom) (el : Path) : ClassName :=
  match doc.at? el with
  | some n => if n.attrs.isSVG then .animated n.attrs.classAttr else .string n.attrs.classAttr
  | none => .string ""

/-! ## Plugin state and the world it runs in -/

/-- Record `this.settings` (defaults in `defaultSettings`). -/
structure Settings where
  enableAutoplay : Bool := true
  respectManualPause : Bool := true
  replayFinishedVideos : Bool := true
  autoReplayOnEnd : Bool := false
  viewportThreshold : Nat := 50
  muteVideos : Bool := false
deriving DecidableEq, Repr

/-- Result of `getBoundingClientRect()`; only order comparisons are made on it. -/
structure Rect where
  top : Int := 0
  bottom : Int := 0
  left : Int := 0
  right : Int := 0
deriving DecidableEq, Repr

/-- The page and the plugin object. -/
structure World where
  doc : Dom
  innerHeight : Int := 0
  innerWidth : Int := 0
  clientHeight : Int := 0
  clientWidth : Int := 0
  /-- Property `video.paused`. -/
  paused : Path → Bool := fun _ => true
  /-- Property `video.ended`. -/
  ended : Path → Bool := fun _ => false
  /-- Property `video.muted`. -/
  muted : Path → Bool := fun _ => false
  /-- Property `el.style.display`. -/
  display : Path → String := fun _ => ""
  /-- Result of `video.getBoundingClientRect()`. -/
  rect : Path → Rect := fun _ => {}
  settings : Settings := {}
  /-- Field `this.manuallyPausedVideos` (a WeakSet of elements). -/
  manuallyPausedVideos : List Path := []
  /-- Field `this.finishedVideos` (a WeakSet of elements). -/
  finishedVideos : List Path := []

/-- WeakSet `has`. -/
def setHas (s : List Path) (v : Path) : Bool := s.contains v

/-- WeakSet `add`. -/
def setAdd (s : List Path) (v : Path) : List Path := if s.contains v then s else v :: s

/-- WeakSet `delete`. -/
def setDelete (s : List Path) (v : Path) : List Path := s.filter (fun x => x != v)

/-- Assignment of one element's property. -/
def setProp {α : Type} (f : Path → α) (el : Path) (x : α) : Path → α :=
  fun p => if p = el then x else f p

/-- Which control a simulated click goes to. -/
inductive Control where
  /-- Control `[class*="cover"][aria-label="Play"]`. -/
  | cover
  /-- Control `[class*="videoButton"][aria-label="Play again"]`. -/
  | replay
  /-- Control `[class*="videoButton"][aria-label="Play"]`. -/
  | play
  /-- Control `[class*="videoButton"][aria-label="Pause"]`. -/
  | pause
deriving DecidableEq, Repr

/-- Side effects the plugin issues. -/
inductive Action where
  /-- Call `control.click()` on the element at `target`. -/
  | click (c : Control) (target : Path)
  /-- Call `video.play()` (a rejection is swallowed by `.catch`). -/
  | videoPlay
  /-- Call `video.pause()`. -/
  | videoPause
  /-- Call `e.preventDefault()`. -/
  | preventDefault
  /-- Call `e.stopPropagation()`. -/
  | stopPropagation
deriving DecidableEq, Repr

/-- A side effect together with the video the handler is working for and that video's
`muted` property at the moment the effect is issued. -/
structure Event where
  action : Action
  video : Path
  mutedAtDispatch : Bool
deriving DecidableEq, Repr

/-- Record an effect issued in world `w` on behalf of `video`. -/
def emit (w : World) (video : Path) (a : Action) : Event :=
  { action := a, video := video, mutedAtDispatch := w.muted video }

/-- Play actions: a click on the cover, replay or play control, or `video.play()`. -/
def Action.isPlay : Action → Bool
  | .click .cover _ => true
  | .click .replay _ => true
  | .click .play _ => true
  | .videoPlay => true
  | _ => false

/-- Pause actions: a click on the pause control, or `video.pause()`. -/
def Action.isPause : Action → Bool
  | .click .pause _ => true
  | .videoPause => true
  | _ => false

/-- Control activations: simulated clicks. -/
def Action.isClick : Action → Bool
  | .click _ _ => true
  | _ => false

/-- The event is a play action. -/
def Event.isPlay (e : Event) : Bool := e.action.isPlay

/-- The event is a pause action. -/
def Event.isPause (e : Event) : Bool := e.action.isPause

/-- The event is a control activation. -/
def Event.isClick (e : Event) : Bool := e.action.isClick

/-! ## Selectors of the source -/

/-- Selector `[class*="wrapper"]`. -/
def selWrapper : Selector := .classSub "wrapper"
/-- Selector `[class*="visualMediaItemContainer"]`. -/
def selMediaItem : Selector := .classSub "visualMediaItemContainer"
/-- Selector `[class*="imageWrapper"]`. -/
def selImageWrapper : Selector := .classSub "imageWrapper"
/-- Selector `[class*="mosaicItem"]`. -/
def selMosaicItem : Selector := .classSub "mosaicItem"
/-- Selector `[class*="container"]`. -/
def selContainer : Selector := .classSub "container"
/-- Selector `[class*="cover"][aria-label="Play"]`. -/
def selPlayCover : Selector := .classSubAria "cover" "Play"
/-- Selector `[class*="videoButton"][aria-label="Play"]`. -/
def selPlayButton : Selector := .classSubAria "videoButton" "Play"
/-- Selector `[class*="videoButton"][aria-label="Play again"]`. -/
def selReplayButton : Selector := .classSubAria "videoButton" "Play again"
/-- Selector `[class*="videoButton"][aria-label="Pause"]`. -/
def selPauseButton : Selector := .classSubAria "videoButton" "Pause"

/-! ## The plugin -/

/-- Lines 98-110 of `clickPlayPauseButton`: the multi-attachment check; `true` when the
function returns at "Multi-attachment, skip". -/
def multiAttachmentSkip (doc : Dom) (video : Path) : Bool :=
  match closest doc video selMediaItem with
  | none => false
  | some mediaContainer =>
    match firstElementChild doc mediaContainer with
    | none => false
    | some gridContainer =>
      if (classNameAt doc gridContainer).truthy then
        let isSingleItem :=
          classHas (classNameAt doc gridContainer).toStr "ByOneGridSingle" ||
          classHas (classNameAt doc gridContainer).toStr "ByTwoGridSingle" ||
          classHas (classNameAt doc gridContainer).toStr "ByThreeGridSingle"
        let isMosaic := classHas (classNameAt doc gridContainer).toStr "GridMosaic"
        isMosaic || !isSingleItem
      else false

/-- Method `clickPlayPauseButton(video, shouldPlay)`. -/
def clickPlayPauseButton (w : World) (video : Path) (shouldPlay : Bool) :
    World × List Event :=
  if shouldPlay && !w.settings.enableAutoplay then (w, [])
  else
    match closest w.doc video selWrapper with
    | none =>
      if shouldPlay then (w, [emit w video .videoPlay])
      else (w, [emit w video .videoPause])
    | some wrapper =>
      if shouldPlay then
        if multiAttachmentSkip w.doc video then (w, [])
        else if w.settings.respectManualPause && setHas w.manuallyPausedVideos video then
          (w, [])
        else if !w.settings.replayFinishedVideos && setHas w.finishedVideos video then
          (w, [])
        else
          let w1 := { w with muted := setProp w.muted video w.settings.muteVideos }
          match querySelector w.doc wrapper selPlayCover with
          | some playCover =>
            ({ w1 with finishedVideos := setDelete w1.finishedVideos video },
              [emit w1 video (.click .cover playCover)])
          | none =>
            match querySelector w.doc wrapper selReplayButton with
            | some replayButton =>
              ({ w1 with finishedVideos := setDelete w1.finishedVideos video },
                [emit w1 video (.click .replay replayButton)])
            | none =>
              match querySelector w.doc wrapper selPlayButton with
              | some playButton => (w1, [emit w1 video (.click .play playButton)])
              | none => (w1, [emit w1 video .videoPlay])
      else
        match querySelector w.doc wrapper selPauseButton with
        | some pauseButton => (w, [emit w video (.click .pause pauseButton)])
        | none => (w, [emit w video .videoPause])

/-- Method `isMessageVideo(video)`. -/
def isMessageVideo (doc : Dom) (video : Path) : Bool :=
  match closest doc video selWrapper with
  | none => false
  | some _ =>
    match (closest doc video selMediaItem).orElse (fun _ =>
          (closest doc video selImageWrapper).orElse (fun _ =>
            closest doc video selMosaicItem)) with
    | none => false
    | some _ =>
      match closest doc video selContainer with
      | none => false
      | some _ => true

/-- Local `windowHeight` of `isVideoInViewport`:
`window.innerHeight || document.documentElement.clientHeight`. -/
def windowHeight (w : World) : Int :=
  if w.innerHeight ≠ 0 then w.innerHeight else w.clientHeight

/-- Local `windowWidth` of `isVideoInViewport`:
`window.innerWidth || document.documentElement.clientWidth`. -/
def windowWidth (w : World) : Int :=
  if w.innerWidth ≠ 0 then w.innerWidth else w.clientWidth

/-- Method `isVideoInViewport(video)`. -/
def isVideoInViewport (w : World) (video : Path) : Bool :=
  let rect := w.rect video
  let verticalInView := decide (rect.top < windowHeight w) && decide (rect.bottom > 0)
  let horizontalInView := decide (rect.left < windowWidth w) && decide (rect.right > 0)
  verticalInView && horizontalInView

/-- Method `processExistingVideos()`: the videos handed to `observeVideo`. -/
def processExistingVideos (doc : Dom) : List Path :=
  (documentQuerySelectorAll doc (.tag "video")).filter (isMessageVideo doc)

/-- Local `isControl` of the overlay click listener (lines 236-240): the click target is
within a native control. -/
def isControl (doc : Dom) (clickedElement : Path) : Bool :=
  (closest doc clickedElement (.classSub "videoButton")).isSome ||
  (closest doc clickedElement (.classSub "slider")).isSome ||
  (closest doc clickedElement (.classSub "volumeButton")).isSome ||
  (closest doc clickedElement (.tag "button")).isSome ||
  (closest doc clickedElement (.tag "input")).isSome

/-- The `click` listener that `observeVideo(video)` puts on the overlay of `wrapper`
(lines 231-275); `target` is `e.target`. -/
def overlayClick (w : World) (video wrapper target : Path) : World × List Event :=
  let pre := [emit w video .preventDefault, emit w video .stopPropagation]
  if isControl w.doc target then (w, pre)
  else
    if w.paused video then
      let w1 := { w with manuallyPausedVideos := setDelete w.manuallyPausedVideos video }
      match querySelector w.doc wrapper selPlayButton with
      | some playButton => (w1, pre ++ [emit w1 video (.click .play playButton)])
      | none =>
        match querySelector w.doc wrapper selPlayCover with
        | some playCover =>
          if w1.display playCover ≠ "none" then
            (w1, pre ++ [emit w1 video (.click .cover playCover)])
          else
            let w2 := { w1 with display := setProp w1.display playCover "none" }
            (w2, pre ++ [emit w2 video .videoPlay])
        | none => (w1, pre ++ [emit w1 video .videoPlay])
    else
      let w1 := { w with manuallyPausedVideos := setAdd w.manuallyPausedVideos video }
      match querySelector w.doc wrapper selPauseButton with
      | some pauseButton => (w1, pre ++ [emit w1 video (.click .pause pauseButton)])
      | none => (w1, pre ++ [emit w1 video .videoPause])

/-- The `ended` listener of `observeVideo(video)` (lines 286-305) up to `setTimeout`:
returns the wrapper captured by the scheduled callback, if one is scheduled. -/
def onEnded (w : World) (video : Path) : World × Option Path :=
  let w1 := { w with finishedVideos := setAdd w.finishedVideos video }
  if w1.settings.autoReplayOnEnd && isVideoInViewport w1 video then
    (w1, closest w1.doc video selWrapper)
  else (w1, none)

/-- The callback the `ended` listener schedules with `setTimeout(..., 100)`
(lines 294-302), run in the world `w` it finds when the timer fires. -/
def autoReplayTimeout (w : World) (video wrapper : Path) : World × List Event :=
  match querySelector w.doc wrapper selReplayButton with
  | some replayButton =>
    ({ w with finishedVideos := setDelete w.finishedVideos video },
      [emit w video (.click .replay replayButton)])
  | none => (w, [emit w video .videoPlay])

/-- Body of the `forEach` in the interval callback of `startPlayingVideoCheck`
(lines 324-330) for one video. -/
def playingVideoCheck (w : World) (video : Path) : World × List Event :=
  if !isMessageVideo w.doc video then (w, [])
  else
    if !w.paused video && !w.ended video then
      if !isVideoInViewport w video then clickPlayPauseButton w video false
      else (w, [])
    else (w, [])

/-- One firing of the interval callback of `startPlayingVideoCheck` (lines 322-332):
the reconciliation tick over `document.querySelectorAll("video")`. -/
def startPlayingVideoCheck (w : World) : World × List Event :=
  (documentQuerySelectorAll w.doc (.tag "video")).foldl
    (fun acc video =>
      let r := playingVideoCheck acc.1 video
      (r.1, acc.2 ++ r.2))
    (w, [])

/-! ## Sample documents -/

/-- A cover-play control. -/
def coverEl : Dom := .node { localName := "div", classAttr := "cover_c4", ariaLabel := some "Play" } []
/-- A plain play control. -/
def playEl : Dom :=
  .node { localName := "div", classAttr := "videoButton_b2", ariaLabel := some "Play" } []
/-- A replay control. -/
def replayEl : Dom :=
  .node { localName := "div", classAttr := "videoButton_b2", ariaLabel := some "Play again" } []
/-- A pause control. -/
def pauseEl : Dom :=
  .node { localName := "div", classAttr := "videoButton_b2", ariaLabel := some "Pause" } []
/-- The overlay `div` that `observeVideo` appends to the wrapper. -/
def overlayEl (kids : List Dom) : Dom := .node { localName := "div" } kids

/-- A message with one video: container > visualMediaItemContainer > grid > wrapper >
video, followed inside the wrapper by the given controls. -/
def messageDoc (gridClass : String) (controls : List Dom) : Dom :=
  .node { localName := "div", classAttr := "container_9a3" }
    [ .node { localName := "div", classAttr := "visualMediaItemContainer_c1" }
        [ .node { localName := "div", classAttr := gridClass }
            [ .node { localName := "div", classAttr := "wrapper_f7" }
                (.node { localName := "video" } [] :: controls) ] ] ]

/-- The video of `messageDoc`. -/
def msgVideo : Path := [0, 0, 0, 0]
/-- The wrapper of `messageDoc`. -/
def msgWrapper : Path := [0, 0, 0]

/-- Grid class of a single-attachment message. -/
def singleGrid : String := "oneByOneGrid_d3 oneByOneGridSingle_d3"
/-- Grid class of a mosaic of attachments. -/
def mosaicGrid : String := "oneByTwoGrid_d3 oneByTwoGridMosaic_d3"


/-! ## Sample worlds -/

/-- A single-attachment message whose wrapper holds a cover and a play control; the
video was paused by the user and has finished. -/
def pausedFinishedWorld (respect replay : Bool) : World :=
  { doc := messageDoc singleGrid [coverEl, playEl]
    settings := { respectManualPause := respect, replayFinishedVideos := replay }
    manuallyPausedVideos := [msgVideo]
    finishedVideos := [msgVideo] }

/-- A mosaic of attachments; the video is on screen and `autoReplayOnEnd` is on. -/
def mosaicWorld : World :=
  { doc := messageDoc mosaicGrid [replayEl]
    innerHeight := 800
    innerWidth := 1200
    rect := fun _ => { top := 100, bottom := 400, left := 100, right := 600 }
    settings := { autoReplayOnEnd := true } }

/-- A video in a mosaic grid that has no wrapper ancestor. -/
def bareMosaicDoc : Dom :=
  .node { localName := "div", classAttr := "container_9a3" }
    [ .node { localName := "div", classAttr := "visualMediaItemContainer_c1" }
        [ .node { localName := "div", classAttr := mosaicGrid }
            [ .node { localName := "video" } [] ] ] ]

/-- The video of `bareMosaicDoc`. -/
def bareVideo : Path := [0, 0, 0]

/-- A single-attachment message with the given controls and default settings, the video
flagged finished. -/
def playWorld (controls : List Dom) : World :=
  { doc := messageDoc singleGrid controls
    finishedVideos := [msgVideo] }

/-- A video with a wrapper ancestor but no media container ancestor: out of scope. -/
def avatarDoc : Dom :=
  .node { localName := "div", classAttr := "container_9a3" }
    [ .node { localName := "div", classAttr := "wrapper_f7" }
        [ .node { localName := "video" } [], pauseEl ] ]

/-- The video of `avatarDoc`. -/
def avatarVideo : Path := [0, 0]

/-- The out-of-scope video of `avatarDoc`, playing and fully below the window. -/
def avatarWorld : World :=
  { doc := avatarDoc
    innerHeight := 800
    innerWidth := 1200
    paused := fun _ => false
    rect := fun _ => { top := 900, bottom := 1200, left := 100, right := 600 } }

/-- A single-attachment message, the video playing and fully below the window
(`rect.top >= windowHeight`), with the given controls. -/
def offscreenWorld (controls : List Dom) : World :=
  { doc := messageDoc singleGrid controls
    innerHeight := 800
    innerWidth := 1200
    paused := fun _ => false
    rect := fun _ => { top := 900, bottom := 1200, left := 100, right := 600 } }

/-- A single-attachment message with the given controls, followed by the overlay that
`observeVideo` appended to the wrapper; the overlay holds the given elements. -/
def overlayDoc (controls overlayKids : List Dom) : Dom :=
  messageDoc singleGrid (controls ++ [overlayEl overlayKids])

/-- A video that is paused without having been paused by the user (for instance after
leaving the viewport); the wrapper holds a play control. -/
def autoPausedWorld : World :=
  { doc := overlayDoc [playEl] []
    paused := fun _ => true
    manuallyPausedVideos := [] }

/-- A playing video; the wrapper holds a pause control and the overlay holds a
`button`. -/
def playingWorld : World :=
  { doc := overlayDoc [pauseEl] [.node { localName := "button" } []]
    paused := fun _ => false
    manuallyPausedVideos := [] }

/-- A message whose grid element, the first element child of the media container, is an
SVG element carrying the class of a single-attachment grid. -/
def svgGridDoc : Dom :=
  .node { localName := "div", classAttr := "container_9a3" }
    [ .node { localName := "div", classAttr := "visualMediaItemContainer_c1" }
        [ .node { localName := "svg", classAttr := singleGrid, isSVG := true }
            [ .node { localName := "div", classAttr := "wrapper_f7" }
                [ .node { localName := "video" } [], playEl ] ] ] ]

/-- A playing video flagged manually paused, with `respectManualPause` off; the wrapper
holds a pause control. -/
def playingFlaggedWorld : World :=
  { doc := overlayDoc [pauseEl] []
    paused := fun _ => false
    settings := { respectManualPause := false }
    manuallyPausedVideos := [msgVideo] }

/-! # Theorems -/

/-! ## The playback controller -/

/-- The pause branch of `clickPlayPauseButton` leaves the world as it is. -/
theorem clickPlayPauseButton_pause_world (w : World) (video : Path) :
    (clickPlayPauseButton w video false).1 = w := by
  unfold clickPlayPauseButton
  simp only [Bool.false_and, Bool.false_eq_true, if_false]
  split
  · rfl
  · split <;> rfl

/-- Claim C1.  For an element with a wrapper ancestor that is not skipped by the
multi-attachment check, and with `enableAutoplay` on, `clickPlayPauseButton(video, true)`
issues a play action if and only if it is not the case that `respectManualPause` is on and
the element is flagged manually paused, and not the case that `replayFinishedVideos` is off
and the element is flagged finished. -/
theorem clickPlayPauseButton_play_iff (w : World) (video wrapper : Path)
    (hw : closest w.doc video selWrapper = some wrapper)
    (hskip : multiAttachmentSkip w.doc video = false)
    (hen : w.settings.enableAutoplay = true) :
    ((clickPlayPauseButton w video true).2.any Event.isPlay = true) ↔
      (¬ (w.settings.respectManualPause = true ∧
            setHas w.manuallyPausedVideos video = true) ∧
       ¬ (w.settings.replayFinishedVideos = false ∧
            setHas w.finishedVideos video = true)) := by
  unfold clickPlayPauseButton
  simp only [hw, hskip, hen]
  cases hr : w.settings.respectManualPause <;>
  cases hm : setHas w.manuallyPausedVideos video <;>
  cases hf : w.settings.replayFinishedVideos <;>
  cases hd : setHas w.finishedVideos video <;>
  cases querySelector w.doc wrapper selPlayCover <;>
  cases querySelector w.doc wrapper selReplayButton <;>
  cases querySelector w.doc wrapper selPlayButton <;>
  simp [Event.isPlay, Action.isPlay, emit]

/-- Claim C1 at sample worlds: a manually paused, finished video is not played when
`respectManualPause` is on, is played when it is off; it is not played when
`replayFinishedVideos` is off, and is played once that setting is switched on. -/
theorem clickPlayPauseButton_play_iff_witness :
    ((clickPlayPauseButton (pausedFinishedWorld false true) msgVideo true).2.any
        Event.isPlay = true) ∧
    ((clickPlayPauseButton (pausedFinishedWorld true true) msgVideo true).2.any
        Event.isPlay = true ↔ False) ∧
    ((clickPlayPauseButton (pausedFinishedWorld false false) msgVideo true).2.any
        Event.isPlay = true ↔ False) :=
  ⟨(clickPlayPauseButton_play_iff (pausedFinishedWorld false true) msgVideo
      msgWrapper (by decide) (by decide) (by decide)).mpr ⟨by decide, by decide⟩,
   (clickPlayPauseButton_play_iff (pausedFinishedWorld true true) msgVideo
      msgWrapper (by decide) (by decide) (by decide)).trans (by decide),
   (clickPlayPauseButton_play_iff (pausedFinishedWorld false false) msgVideo
      msgWrapper (by decide) (by decide) (by decide)).trans (by decide)⟩

/-- An SVG grid element: its `className` is an object, truthy and matching neither
regular expression, so the multi-attachment check skips the video although the class
attribute names a single-attachment grid. -/
theorem multiAttachmentSkip_svg :
    classAttrAt svgGridDoc [0, 0] = singleGrid ∧
    multiAttachmentSkip svgGridDoc msgVideo = true ∧
    (clickPlayPauseButton { doc := svgGridDoc } msgVideo true).2 = [] := by
  decide

/-- Counterexample to claim C2 as stated.  In a mosaic grid, with `autoReplayOnEnd` on and
the video on screen, the `ended` listener schedules the auto-replay and its callback
clicks the replay control; and a mosaic video without a wrapper ancestor is played by
`clickPlayPauseButton(video, true)` through the no-wrapper fallback. -/
theorem mosaic_play_counterexample :
    (closest mosaicWorld.doc msgVideo selMediaItem = some [0] ∧
      firstElementChild mosaicWorld.doc [0] = some [0, 0] ∧
      classHas (classAttrAt mosaicWorld.doc [0, 0]) "GridMosaic" = true ∧
      (onEnded mosaicWorld msgVideo).2 = some msgWrapper ∧
      (autoReplayTimeout (onEnded mosaicWorld msgVideo).1 msgVideo msgWrapper).2 =
        [{ action := .click .replay [0, 0, 0, 1], video := msgVideo,
           mutedAtDispatch := false }]) ∧
    (closest bareMosaicDoc bareVideo selMediaItem = some [0] ∧
      firstElementChild bareMosaicDoc [0] = some [0, 0] ∧
      classHas (classAttrAt bareMosaicDoc [0, 0]) "GridMosaic" = true ∧
      (clickPlayPauseButton { doc := bareMosaicDoc } bareVideo true).2 =
        [{ action := .videoPlay, video := bareVideo, mutedAtDispatch := false }]) := by
  decide

/-- Claim C2, amended.  For an element with a wrapper ancestor, inside a
visualMediaItemContainer whose first element child has a class name containing
"GridMosaic" (an HTML or an SVG element), `clickPlayPauseButton(video, true)` issues no
action at all and leaves the world unchanged, whatever the settings and flags. -/
theorem clickPlayPauseButton_mosaic_skip (w : World) (video wrapper mediaContainer
    gridContainer : Path)
    (hw : closest w.doc video selWrapper = some wrapper)
    (hm : closest w.doc video selMediaItem = some mediaContainer)
    (hg : firstElementChild w.doc mediaContainer = some gridContainer)
    (hc : classHas (classAttrAt w.doc gridContainer) "GridMosaic" = true) :
    clickPlayPauseButton w video true = (w, []) := by
  have hskip : multiAttachmentSkip w.doc video = true := by
    unfold multiAttachmentSkip
    simp only [hm, hg]
    unfold classAttrAt at hc
    unfold classNameAt
    cases hd : w.doc.at? gridContainer with
    | none =>
      rw [hd] at hc
      revert hc
      decide
    | some n =>
      rw [hd] at hc
      replace hc : classHas n.attrs.classAttr "GridMosaic" = true := hc
      cases hs : n.attrs.isSVG
      · have hne : n.attrs.classAttr ≠ "" := by
          intro h
          rw [h] at hc
          revert hc
          decide
        simp [hd, hs, ClassName.truthy, ClassName.toStr, hne, hc]
      · have h1 : classHas "[object SVGAnimatedString]" "ByOneGridSingle" = false := by decide
        have h2 : classHas "[object SVGAnimatedString]" "ByTwoGridSingle" = false := by decide
        have h3 : classHas "[object SVGAnimatedString]" "ByThreeGridSingle" = false := by
          decide
        simp [hd, hs, ClassName.truthy, ClassName.toStr, h1, h2, h3]
  unfold clickPlayPauseButton
  simp [hw, hskip]

/-- Claim C2, amended, at a sample world: the mosaic video is not played on viewport
entry. -/
theorem clickPlayPauseButton_mosaic_skip_witness :
    clickPlayPauseButton mosaicWorld msgVideo true = (mosaicWorld, []) :=
  clickPlayPauseButton_mosaic_skip mosaicWorld msgVideo msgWrapper [0] [0, 0]
    (by decide) (by decide) (by decide) (by decide)

/-- Counterexample to claim C3 as stated.  Without a wrapper ancestor the fallback calls
`video.play()` before `muteVideos` is applied: the element is not muted at dispatch
although `muteVideos` is on. -/
theorem mute_fallback_counterexample :
    closest bareMosaicDoc bareVideo selWrapper = none ∧
    (clickPlayPauseButton
        { doc := bareMosaicDoc, settings := { muteVideos := true } } bareVideo true).2 =
      [{ action := .videoPlay, video := bareVideo, mutedAtDispatch := false }] := by
  decide

/-- Claim C3, amended.  For an element with a wrapper ancestor, every play action that
`clickPlayPauseButton(video, true)` dispatches finds the element's `muted` property equal
to `settings.muteVideos`, and the property keeps that value after the call. -/
theorem clickPlayPauseButton_mute (w : World) (video wrapper : Path)
    (hw : closest w.doc video selWrapper = some wrapper) :
    ∀ e ∈ (clickPlayPauseButton w video true).2, e.isPlay = true →
      e.mutedAtDispatch = w.settings.muteVideos ∧
      (clickPlayPauseButton w video true).1.muted video = w.settings.muteVideos := by
  unfold clickPlayPauseButton
  simp only [hw]
  cases w.settings.enableAutoplay <;>
  cases multiAttachmentSkip w.doc video <;>
  cases w.settings.respectManualPause <;>
  cases setHas w.manuallyPausedVideos video <;>
  cases w.settings.replayFinishedVideos <;>
  cases setHas w.finishedVideos video <;>
  cases querySelector w.doc wrapper selPlayCover <;>
  cases querySelector w.doc wrapper selReplayButton <;>
  cases querySelector w.doc wrapper selPlayButton <;>
  simp [emit, setProp]

/-- Claim C3, amended, at a sample world with `muteVideos` on and the element unmuted
before the call: the click on the play control finds the element muted. -/
theorem clickPlayPauseButton_mute_witness :
    closest (messageDoc singleGrid [playEl]) msgVideo selWrapper = some msgWrapper ∧
    (clickPlayPauseButton
        { doc := messageDoc singleGrid [playEl], settings := { muteVideos := true } }
        msgVideo true).2 =
      [{ action := .click .play [0, 0, 0, 1], video := msgVideo, mutedAtDispatch := true }] ∧
    (clickPlayPauseButton
        { doc := messageDoc singleGrid [playEl], settings := { muteVideos := true } }
        msgVideo true).1.muted msgVideo = true :=
  ⟨by decide, by decide,
    (clickPlayPauseButton_mute
      { doc := messageDoc singleGrid [playEl], settings := { muteVideos := true } }
      msgVideo msgWrapper (by decide)
      { action := .click .play [0, 0, 0, 1], video := msgVideo, mutedAtDispatch := true }
      (by decide) (by decide)).2⟩

/-- Deleting an element from a WeakSet removes it. -/
theorem setHas_setDelete (s : List Path) (v : Path) : setHas (setDelete s v) v = false := by
  unfold setHas setDelete
  rw [Bool.eq_false_iff]
  intro h
  have hm : v ∈ s.filter (fun x => x != v) := List.elem_iff.mp h
  have := (List.mem_filter.mp hm).2
  simp at this

/-- Claim C4.  When `clickPlayPauseButton(video, true)` passes all its skip checks it
performs exactly one action, chosen by priority over the controls in the wrapper: the
cover-play control; else the replay control; else the plain play control; else a direct
`video.play()`.  The finished flag is cleared when the cover or the replay control is
clicked and the set of finished videos is untouched otherwise. -/
theorem clickPlayPauseButton_dispatch (w : World) (video wrapper : Path)
    (hen : w.settings.enableAutoplay = true)
    (hw : closest w.doc video selWrapper = some wrapper)
    (hskip : multiAttachmentSkip w.doc video = false)
    (hmp : ¬ (w.settings.respectManualPause = true ∧
      setHas w.manuallyPausedVideos video = true))
    (hfin : ¬ (w.settings.replayFinishedVideos = false ∧
      setHas w.finishedVideos video = true)) :
    (∀ c, querySelector w.doc wrapper selPlayCover = some c →
      (clickPlayPauseButton w video true).2.map Event.action = [.click .cover c] ∧
      setHas (clickPlayPauseButton w video true).1.finishedVideos video = false) ∧
    (querySelector w.doc wrapper selPlayCover = none →
      ∀ b, querySelector w.doc wrapper selReplayButton = some b →
      (clickPlayPauseButton w video true).2.map Event.action = [.click .replay b] ∧
      setHas (clickPlayPauseButton w video true).1.finishedVideos video = false) ∧
    (querySelector w.doc wrapper selPlayCover = none →
      querySelector w.doc wrapper selReplayButton = none →
      ∀ b, querySelector w.doc wrapper selPlayButton = some b →
      (clickPlayPauseButton w video true).2.map Event.action = [.click .play b] ∧
      (clickPlayPauseButton w video true).1.finishedVideos = w.finishedVideos) ∧
    (querySelector w.doc wrapper selPlayCover = none →
      querySelector w.doc wrapper selReplayButton = none →
      querySelector w.doc wrapper selPlayButton = none →
      (clickPlayPauseButton w video true).2.map Event.action = [.videoPlay] ∧
      (clickPlayPauseButton w video true).1.finishedVideos = w.finishedVideos) := by
  have h1 : (w.settings.respectManualPause && setHas w.manuallyPausedVideos video) = false := by
    cases hr : w.settings.respectManualPause <;>
    cases hm : setHas w.manuallyPausedVideos video <;> simp_all
  have h2 : (!w.settings.replayFinishedVideos && setHas w.finishedVideos video) = false := by
    cases hr : w.settings.replayFinishedVideos <;>
    cases hm : setHas w.finishedVideos video <;> simp_all
  unfold clickPlayPauseButton
  simp only [hw, hskip, hen, h1, h2]
  refine ⟨?_, ?_, ?_, ?_⟩
  · intro c hc
    simp [hc, emit, setHas_setDelete]
  · intro hc b hb
    simp [hc, hb, emit, setHas_setDelete]
  · intro hc hr b hb
    simp [hc, hr, hb, emit]
  · intro hc hr hb
    simp [hc, hr, hb, emit]

/-- Claim C4 at sample worlds holding, in turn, all three controls, the replay and play
controls, the play control only, and no control. -/
theorem clickPlayPauseButton_dispatch_witness :
    ((clickPlayPauseButton (playWorld [playEl, replayEl, coverEl]) msgVideo true).2.map
        Event.action = [.click .cover [0, 0, 0, 3]] ∧
      setHas (clickPlayPauseButton (playWorld [playEl, replayEl, coverEl]) msgVideo
        true).1.finishedVideos msgVideo = false) ∧
    ((clickPlayPauseButton (playWorld [playEl, replayEl]) msgVideo true).2.map
        Event.action = [.click .replay [0, 0, 0, 2]] ∧
      setHas (clickPlayPauseButton (playWorld [playEl, replayEl]) msgVideo
        true).1.finishedVideos msgVideo = false) ∧
    ((clickPlayPauseButton (playWorld [playEl]) msgVideo true).2.map
        Event.action = [.click .play [0, 0, 0, 1]] ∧
      (clickPlayPauseButton (playWorld [playEl]) msgVideo true).1.finishedVideos =
        [msgVideo]) ∧
    ((clickPlayPauseButton (playWorld []) msgVideo true).2.map
        Event.action = [.videoPlay] ∧
      (clickPlayPauseButton (playWorld []) msgVideo true).1.finishedVideos =
        [msgVideo]) :=
  ⟨(clickPlayPauseButton_dispatch (playWorld [playEl, replayEl, coverEl]) msgVideo
      msgWrapper (by decide) (by decide) (by decide) (by decide) (by decide)).1
      [0, 0, 0, 3] (by decide),
   (clickPlayPauseButton_dispatch (playWorld [playEl, replayEl]) msgVideo
      msgWrapper (by decide) (by decide) (by decide) (by decide) (by decide)).2.1
      (by decide) [0, 0, 0, 2] (by decide),
   (clickPlayPauseButton_dispatch (playWorld [playEl]) msgVideo
      msgWrapper (by decide) (by decide) (by decide) (by decide) (by decide)).2.2.1
      (by decide) (by decide) [0, 0, 0, 1] (by decide),
   (clickPlayPauseButton_dispatch (playWorld []) msgVideo
      msgWrapper (by decide) (by decide) (by decide) (by decide) (by decide)).2.2.2
      (by decide) (by decide) (by decide)⟩

/-! ## Document order -/

/-- Every path in a forest starts with the index of a sibling at or after `i`. -/
theorem Dom.forest_head (ks : List Dom) : ∀ (i : Nat) (p : Path), p ∈ Dom.forest ks i →
    ∃ j q, p = j :: q ∧ i ≤ j := by
  induction ks with
  | nil => intro i p hp; simp [Dom.forest] at hp
  | cons k ks ih =>
    intro i p hp
    rw [Dom.forest, List.mem_append] at hp
    rcases hp with hp | hp
    · obtain ⟨q, _, rfl⟩ := List.mem_map.mp hp
      exact ⟨i, q, rfl, le_rfl⟩
    · obtain ⟨j, q, rfl, hj⟩ := ih (i + 1) p hp
      exact ⟨j, q, rfl, by omega⟩

mutual
/-- The enumeration of a subtree lists every element once. -/
theorem Dom.subtree_nodup : ∀ d : Dom, d.subtree.Nodup
  | .node _ kids => by
    rw [Dom.subtree, List.nodup_cons]
    refine ⟨?_, Dom.forest_nodup kids 0⟩
    intro h
    obtain ⟨j, q, hq, _⟩ := Dom.forest_head kids 0 [] h
    cases hq
/-- The enumeration of a forest lists every element once. -/
theorem Dom.forest_nodup : ∀ (ks : List Dom) (i : Nat), (Dom.forest ks i).Nodup
  | [], _ => by simp [Dom.forest]
  | k :: ks, i => by
    rw [Dom.forest, List.nodup_append]
    refine ⟨?_, Dom.forest_nodup ks (i + 1), ?_⟩
    · exact (Dom.subtree_nodup k).map (fun a b h => by injection h)
    · intro p hp hp2
      obtain ⟨q, _, rfl⟩ := List.mem_map.mp hp
      obtain ⟨j, q2, hq, hj⟩ := Dom.forest_head ks (i + 1) _ hp2
      injection hq with h1 _
      omega
end

/-- A document query lists every matching element once. -/
theorem documentQuerySelectorAll_nodup (doc : Dom) (sel : Selector) :
    (documentQuerySelectorAll doc sel).Nodup :=
  (Dom.subtree_nodup doc).filter _

/-! ## The reconciliation tick -/

/-- The per-video check of the tick leaves the world as it is. -/
theorem playingVideoCheck_world (w : World) (video : Path) :
    (playingVideoCheck w video).1 = w := by
  unfold playingVideoCheck
  split
  · rfl
  · split
    · split
      · exact clickPlayPauseButton_pause_world w video
      · rfl
    · rfl

/-- Every effect of `clickPlayPauseButton` is issued on behalf of its argument. -/
theorem clickPlayPauseButton_video (w : World) (video : Path) (shouldPlay : Bool) :
    ∀ e ∈ (clickPlayPauseButton w video shouldPlay).2, e.video = video := by
  unfold clickPlayPauseButton
  intro e he
  repeat' split at he
  all_goals simp [emit] at he
  all_goals simp [he]

/-- Every effect of the per-video check is issued on behalf of that video. -/
theorem playingVideoCheck_video (w : World) (video : Path) :
    ∀ e ∈ (playingVideoCheck w video).2, e.video = video := by
  unfold playingVideoCheck
  intro e he
  repeat' split at he
  all_goals first
    | exact clickPlayPauseButton_video w video false e he
    | simp at he

/-- Folding the per-video check over a list of videos: the world stays, the effects are
concatenated in order. -/
theorem playingVideoCheck_foldl (w : World) (l : List Path) : ∀ evs : List Event,
    l.foldl (fun acc video => ((playingVideoCheck acc.1 video).1,
        acc.2 ++ (playingVideoCheck acc.1 video).2)) (w, evs) =
      (w, evs ++ l.flatMap (fun video => (playingVideoCheck w video).2)) := by
  induction l with
  | nil => intro evs; simp
  | cons v l ih =>
    intro evs
    have e := ih (evs ++ (playingVideoCheck w v).2)
    simp only [List.foldl_cons, playingVideoCheck_world] at e ⊢
    rw [e]
    simp [List.flatMap_cons, List.append_assoc]

/-- One tick: the world stays and the effects are those of the per-video checks. -/
theorem startPlayingVideoCheck_eq (w : World) :
    startPlayingVideoCheck w =
      (w, (documentQuerySelectorAll w.doc (.tag "video")).flatMap
        (fun video => (playingVideoCheck w video).2)) := by
  unfold startPlayingVideoCheck
  have := playingVideoCheck_foldl w (documentQuerySelectorAll w.doc (.tag "video")) []
  simpa using this

/-- Effects of a tick issued on behalf of a video that occurs once in the list. -/
theorem flatMap_filter_video (w : World) (video : Path) (l : List Path)
    (hnd : l.Nodup) (hmem : video ∈ l) :
    (l.flatMap (fun v => (playingVideoCheck w v).2)).filter (fun e => e.video = video) =
      (playingVideoCheck w video).2 := by
  induction l with
  | nil => simp at hmem
  | cons u l ih =>
    rw [List.flatMap_cons, List.filter_append]
    rw [List.nodup_cons] at hnd
    have hall : ∀ v, v ≠ video →
        (playingVideoCheck w v).2.filter (fun e => e.video = video) = [] := by
      intro v hv
      rw [List.filter_eq_nil_iff]
      intro e he
      have := playingVideoCheck_video w v e he
      simp [this, hv]
    have hsame : (playingVideoCheck w video).2.filter (fun e => e.video = video) =
        (playingVideoCheck w video).2 := by
      rw [List.filter_eq_self]
      intro e he
      simp [playingVideoCheck_video w video e he]
    rcases List.mem_cons.mp hmem with rfl | hin
    · rw [hsame]
      have : (l.flatMap (fun v => (playingVideoCheck w v).2)).filter
          (fun e => e.video = video) = [] := by
        rw [List.filter_eq_nil_iff]
        intro e he
        obtain ⟨v, hv, hev⟩ := List.mem_flatMap.mp he
        have h1 := playingVideoCheck_video w v e hev
        have : v ≠ video := fun h => hnd.1 (h ▸ hv)
        simp [h1, this]
      rw [this, List.append_nil]
    · have hne : u ≠ video := fun h => hnd.1 (h ▸ hin)
      rw [hall u hne, ih hnd.2 hin, List.nil_append]

/-- Counterexample to claim C5 as stated.  A video with a wrapper ancestor but no media
container ancestor is out of scope, yet `clickPlayPauseButton` called on it clicks the
pause control (pause intent) and calls `video.play()` (play intent). -/
theorem out_of_scope_counterexample :
    isMessageVideo avatarDoc avatarVideo = false ∧
    (clickPlayPauseButton avatarWorld avatarVideo false).2 =
      [{ action := .click .pause [0, 1], video := avatarVideo, mutedAtDispatch := false }] ∧
    (clickPlayPauseButton avatarWorld avatarVideo true).2 =
      [{ action := .videoPlay, video := avatarVideo, mutedAtDispatch := false }] := by
  decide

/-- Claim C5, amended.  An element that lacks a wrapper ancestor, or lacks all of the
visualMediaItemContainer / imageWrapper / mosaicItem ancestors, or lacks a container
ancestor, is rejected by `isMessageVideo`, is not handed to `observeVideo` by the initial
scan, and one reconciliation tick issues no effect on its behalf and leaves the world
unchanged. -/
theorem startPlayingVideoCheck_out_of_scope (w : World) (video : Path)
    (h : closest w.doc video selWrapper = none ∨
      (closest w.doc video selMediaItem = none ∧
        closest w.doc video selImageWrapper = none ∧
        closest w.doc video selMosaicItem = none) ∨
      closest w.doc video selContainer = none) :
    isMessageVideo w.doc video = false ∧
    video ∉ processExistingVideos w.doc ∧
    (startPlayingVideoCheck w).2.filter (fun e => e.video = video) = [] ∧
    (startPlayingVideoCheck w).1 = w := by
  have hs : isMessageVideo w.doc video = false := by
    unfold isMessageVideo
    rcases h with h | ⟨h1, h2, h3⟩ | h
    · simp [h]
    · simp [h1, h2, h3]
      split <;> rfl
    · simp [h]
      split
      · rfl
      · split <;> rfl
  refine ⟨hs, ?_, ?_, ?_⟩
  · intro hmem
    have := (List.mem_filter.mp hmem).2
    rw [hs] at this
    exact Bool.false_ne_true this
  · rw [startPlayingVideoCheck_eq, List.filter_eq_nil_iff]
    intro e he
    obtain ⟨v, _, hev⟩ := List.mem_flatMap.mp he
    have h1 := playingVideoCheck_video w v e hev
    by_cases hv : v = video
    · subst hv
      unfold playingVideoCheck at hev
      simp [hs] at hev
    · simp [h1, hv]
  · rw [startPlayingVideoCheck_eq]

/-- Claim C5, amended, at a sample world: the out-of-scope video is playing and fully
below the window, and the tick does nothing for it. -/
theorem startPlayingVideoCheck_out_of_scope_witness :
    isMessageVideo avatarWorld.doc avatarVideo = false ∧
    avatarVideo ∉ processExistingVideos avatarWorld.doc ∧
    (startPlayingVideoCheck avatarWorld).2.filter (fun e => e.video = avatarVideo) = [] ∧
    (startPlayingVideoCheck avatarWorld).1 = avatarWorld :=
  startPlayingVideoCheck_out_of_scope avatarWorld avatarVideo
    (Or.inr (Or.inl ⟨by decide, by decide, by decide⟩))

/-- A rectangle fully outside the window bounds is not in the viewport. -/
theorem isVideoInViewport_outside (w : World) (video : Path)
    (hout : windowHeight w ≤ (w.rect video).top ∨ (w.rect video).bottom ≤ 0 ∨
      windowWidth w ≤ (w.rect video).left ∨ (w.rect video).right ≤ 0) :
    isVideoInViewport w video = false := by
  unfold isVideoInViewport
  simp only [Bool.and_eq_false_iff, decide_eq_false_iff_not, not_lt, gt_iff_lt]
  rcases hout with h | h | h | h
  · exact Or.inl (Or.inl h)
  · exact Or.inl (Or.inr h)
  · exact Or.inr (Or.inl h)
  · exact Or.inr (Or.inr h)

/-- Claim C6.  For a video element of the document that is in scope, playing and not
ended, and whose bounding rectangle is fully outside the window bounds, one
reconciliation tick issues exactly one effect on its behalf: a click on the pause control
if the wrapper has one, otherwise a direct `video.pause()`.  No setting or flag enters. -/
theorem startPlayingVideoCheck_pauses (w : World) (video wrapper : Path)
    (hdoc : video ∈ documentQuerySelectorAll w.doc (.tag "video"))
    (hscope : isMessageVideo w.doc video = true)
    (hw : closest w.doc video selWrapper = some wrapper)
    (hplaying : w.paused video = false)
    (hended : w.ended video = false)
    (hout : windowHeight w ≤ (w.rect video).top ∨ (w.rect video).bottom ≤ 0 ∨
      windowWidth w ≤ (w.rect video).left ∨ (w.rect video).right ≤ 0) :
    (∀ b, querySelector w.doc wrapper selPauseButton = some b →
      (startPlayingVideoCheck w).2.filter (fun e => e.video = video) =
        [emit w video (.click .pause b)]) ∧
    (querySelector w.doc wrapper selPauseButton = none →
      (startPlayingVideoCheck w).2.filter (fun e => e.video = video) =
        [emit w video .videoPause]) := by
  have hv := isVideoInViewport_outside w video hout
  have hcheck : (playingVideoCheck w video).2 = (clickPlayPauseButton w video false).2 := by
    unfold playingVideoCheck
    simp [hscope, hplaying, hended, hv]
  have hfilter : (startPlayingVideoCheck w).2.filter (fun e => e.video = video) =
      (clickPlayPauseButton w video false).2 := by
    rw [startPlayingVideoCheck_eq, ← hcheck]
    exact flatMap_filter_video w video _ (documentQuerySelectorAll_nodup _ _) hdoc
  rw [hfilter]
  unfold clickPlayPauseButton
  simp only [hw, Bool.false_and, Bool.false_eq_true, if_false]
  constructor
  · intro b hb
    simp [hb]
  · intro hb
    simp [hb]

/-- Claim C6 at sample worlds: the video is playing with `rect.top = 900` and
`windowHeight = 800`; with a pause control the tick clicks it, without one it calls
`video.pause()`. -/
theorem startPlayingVideoCheck_pauses_witness :
    (startPlayingVideoCheck (offscreenWorld [pauseEl])).2.filter
        (fun e => e.video = msgVideo) =
      [{ action := .click .pause [0, 0, 0, 1], video := msgVideo,
         mutedAtDispatch := false }] ∧
    (startPlayingVideoCheck (offscreenWorld [])).2.filter (fun e => e.video = msgVideo) =
      [{ action := .videoPause, video := msgVideo, mutedAtDispatch := false }] :=
  ⟨(startPlayingVideoCheck_pauses (offscreenWorld [pauseEl]) msgVideo msgWrapper
      (by decide) (by decide) (by decide) (by decide) (by decide)
      (Or.inl (by decide))).1 [0, 0, 0, 1] (by decide),
   (startPlayingVideoCheck_pauses (offscreenWorld []) msgVideo msgWrapper
      (by decide) (by decide) (by decide) (by decide) (by decide)
      (Or.inl (by decide))).2 (by decide)⟩

/-! ## The overlay -/

/-- Adding an element to a WeakSet makes it a member. -/
theorem setHas_setAdd (s : List Path) (v : Path) : setHas (setAdd s v) v = true := by
  unfold setHas setAdd
  by_cases h : s.contains v = true
  · simp only [h, if_true]
  · simp only [h]
    simp

/-- Counterexample to claim C7 as stated.  A video that is paused but not flagged
manually paused: the overlay click plays it and the flag after the click equals the flag
before the click instead of its negation. -/
theorem overlay_flag_counterexample :
    isControl autoPausedWorld.doc [0, 0, 0, 2] = false ∧
    (overlayClick autoPausedWorld msgVideo msgWrapper [0, 0, 0, 2]).2.map Event.action =
      [.preventDefault, .stopPropagation, .click .play [0, 0, 0, 1]] ∧
    setHas autoPausedWorld.manuallyPausedVideos msgVideo = false ∧
    setHas (overlayClick autoPausedWorld msgVideo msgWrapper
      [0, 0, 0, 2]).1.manuallyPausedVideos msgVideo = false := by
  decide

/-- Claim C7, amended.  For an overlay click whose target is not within a native control,
the listener prevents the default action, stops propagation and issues exactly one
further action: a play action if the video was paused, a pause action if it was playing.
After the click the video is flagged manually paused exactly when it was playing before
the click, whatever the flag was. -/
theorem overlayClick_toggle (w : World) (video wrapper target : Path)
    (hctl : isControl w.doc target = false) :
    (w.paused video = true →
      (∃ a, a.isPlay = true ∧
        (overlayClick w video wrapper target).2.map Event.action =
          [.preventDefault, .stopPropagation, a]) ∧
      setHas (overlayClick w video wrapper target).1.manuallyPausedVideos video = false) ∧
    (w.paused video = false →
      (∃ a, a.isPause = true ∧
        (overlayClick w video wrapper target).2.map Event.action =
          [.preventDefault, .stopPropagation, a]) ∧
      setHas (overlayClick w video wrapper target).1.manuallyPausedVideos video = true) := by
  unfold overlayClick
  simp only [hctl]
  constructor
  · intro hp
    simp only [hp]
    cases h1 : querySelector w.doc wrapper selPlayButton with
    | some b => simp [emit, Action.isPlay, setHas_setDelete]
    | none =>
      cases h2 : querySelector w.doc wrapper selPlayCover with
      | none => simp [emit, Action.isPlay, setHas_setDelete]
      | some c =>
        by_cases hd : w.display c = "none"
        · simp [hd, emit, Action.isPlay, setHas_setDelete]
        · simp [hd, emit, Action.isPlay, setHas_setDelete]
  · intro hp
    simp only [hp]
    cases h1 : querySelector w.doc wrapper selPauseButton with
    | some b => simp [emit, Action.isPause, setHas_setAdd]
    | none => simp [emit, Action.isPause, setHas_setAdd]

/-- Claim C7, amended, at a sample world: a playing video, click on the overlay
itself. -/
theorem overlayClick_toggle_witness :
    isControl playingWorld.doc [0, 0, 0, 2] = false ∧
    (∃ a, a.isPause = true ∧
      (overlayClick playingWorld msgVideo msgWrapper [0, 0, 0, 2]).2.map Event.action =
        [.preventDefault, .stopPropagation, a]) ∧
    setHas (overlayClick playingWorld msgVideo msgWrapper
      [0, 0, 0, 2]).1.manuallyPausedVideos msgVideo = true :=
  ⟨by decide,
    ((overlayClick_toggle playingWorld msgVideo msgWrapper [0, 0, 0, 2] (by decide)).2
      (by decide)).1,
    ((overlayClick_toggle playingWorld msgVideo msgWrapper [0, 0, 0, 2] (by decide)).2
      (by decide)).2⟩

/-- Claim C8 evaluated at a click on a `button` inside the overlay: the target is within
a native control, no play or pause action is issued and the manually-paused set is left
alone, but `preventDefault` and `stopPropagation` have been called on the event. -/
theorem overlayClick_control_intercepted :
    isControl playingWorld.doc [0, 0, 0, 2, 0] = true ∧
    (overlayClick playingWorld msgVideo msgWrapper [0, 0, 0, 2, 0]).2.map Event.action =
      [.preventDefault, .stopPropagation] ∧
    (overlayClick playingWorld msgVideo msgWrapper
      [0, 0, 0, 2, 0]).1.manuallyPausedVideos = playingWorld.manuallyPausedVideos := by
  decide

/-! ## Repeated calls and the manual-pause flag -/

/-- Counterexample to claim C9 as stated.  With a play control in the wrapper, two
successive calls `clickPlayPauseButton(video, true)` in an unchanged document click it
twice; with a pause control, two successive calls with the pause intent click it twice. -/
theorem double_click_counterexample :
    (((clickPlayPauseButton (playWorld [playEl]) msgVideo true).2 ++
      (clickPlayPauseButton (clickPlayPauseButton (playWorld [playEl]) msgVideo true).1
        msgVideo true).2).filter Event.isClick).map Event.action =
      [.click .play [0, 0, 0, 1], .click .play [0, 0, 0, 1]] ∧
    (((clickPlayPauseButton (playWorld [pauseEl]) msgVideo false).2 ++
      (clickPlayPauseButton (clickPlayPauseButton (playWorld [pauseEl]) msgVideo false).1
        msgVideo false).2).filter Event.isClick).map Event.action =
      [.click .pause [0, 0, 0, 1], .click .pause [0, 0, 0, 1]] := by
  decide

/-- Claim C9, amended.  A single call of `clickPlayPauseButton` produces at most one
control activation, and a second call with the same intent, run in the world the first
call leaves behind, issues exactly the effects of the first call again; two successive
calls hence produce at most two activations. -/
theorem clickPlayPauseButton_repeat (w : World) (video : Path) (shouldPlay : Bool) :
    ((clickPlayPauseButton w video shouldPlay).2.filter Event.isClick).length ≤ 1 ∧
    (clickPlayPauseButton (clickPlayPauseButton w video shouldPlay).1 video shouldPlay).2 =
      (clickPlayPauseButton w video shouldPlay).2 ∧
    (((clickPlayPauseButton w video shouldPlay).2 ++
      (clickPlayPauseButton (clickPlayPauseButton w video shouldPlay).1 video
        shouldPlay).2).filter Event.isClick).length ≤ 2 := by
  have hlen : ((clickPlayPauseButton w video shouldPlay).2.filter Event.isClick).length ≤ 1 := by
    unfold clickPlayPauseButton
    repeat' split
    all_goals simp only [List.filter_nil, List.length_nil, Nat.zero_le]
    all_goals exact List.length_filter_le _ _
  have hrep : (clickPlayPauseButton (clickPlayPauseButton w video shouldPlay).1 video
      shouldPlay).2 = (clickPlayPauseButton w video shouldPlay).2 := by
    cases shouldPlay with
    | false => rw [clickPlayPauseButton_pause_world]
    | true =>
      unfold clickPlayPauseButton
      cases hen : w.settings.enableAutoplay
      · simp [hen]
      · cases hw : closest w.doc video selWrapper with
        | none => simp [hen, hw]
        | some wrapper =>
          cases hskip : multiAttachmentSkip w.doc video
          · cases hr : w.settings.respectManualPause <;>
            cases hm : setHas w.manuallyPausedVideos video <;>
            cases hf : w.settings.replayFinishedVideos <;>
            cases hd : setHas w.finishedVideos video <;>
            cases hc : querySelector w.doc wrapper selPlayCover <;>
            cases hb : querySelector w.doc wrapper selReplayButton <;>
            cases hp : querySelector w.doc wrapper selPlayButton <;>
            simp [hen, hw, hskip, hr, hm, hf, hd, hc, hb, hp, emit, setProp,
              setHas_setDelete]
          · simp [hen, hw, hskip]
  refine ⟨hlen, hrep, ?_⟩
  rw [hrep, List.filter_append, List.length_append]
  omega

/-- Counterexample to claim C10 as stated.  With `respectManualPause` off, a video flagged
manually paused is played by `clickPlayPauseButton(video, true)` and is still flagged
manually paused after the call. -/
theorem manual_flag_counterexample :
    setHas (pausedFinishedWorld false true).manuallyPausedVideos msgVideo = true ∧
    (clickPlayPauseButton (pausedFinishedWorld false true) msgVideo true).2.map
      Event.action = [.click .cover [0, 0, 0, 1]] ∧
    setHas (clickPlayPauseButton (pausedFinishedWorld false true) msgVideo
      true).1.manuallyPausedVideos msgVideo = true := by
  decide

/-- Claim C10, amended.  `clickPlayPauseButton` never changes the set of manually paused
videos, with either intent and in every world (the video paused or playing, whatever the
settings, flags and controls); the flag of a video is cleared when the user plays it,
paused, through the overlay (a click whose target is not within a native control). -/
theorem manuallyPaused_cleared_by_overlay_only (w : World) (video wrapper target : Path) :
    (∀ shouldPlay : Bool,
      (clickPlayPauseButton w video shouldPlay).1.manuallyPausedVideos =
        w.manuallyPausedVideos) ∧
    (isControl w.doc target = false → w.paused video = true →
      setHas (overlayClick w video wrapper target).1.manuallyPausedVideos video = false) := by
  constructor
  · intro shouldPlay
    unfold clickPlayPauseButton
    repeat' split
    all_goals rfl
  · intro hctl hp
    unfold overlayClick
    simp only [hctl, hp, Bool.false_eq_true, if_false, if_true]
    repeat' split
    all_goals simp [setHas_setDelete]

/-- Claim C10, amended, at sample worlds: a playing video flagged manually paused, with
`respectManualPause` off, is played by an autoplay call and keeps the flag; a paused
video flagged manually paused loses the flag on an overlay click. -/
theorem manuallyPaused_cleared_by_overlay_only_witness :
    (playingFlaggedWorld.paused msgVideo = false ∧
      (clickPlayPauseButton playingFlaggedWorld msgVideo true).2.map Event.action =
        [.videoPlay] ∧
      (clickPlayPauseButton playingFlaggedWorld msgVideo true).1.manuallyPausedVideos =
        [msgVideo]) ∧
    (setHas (pausedFinishedWorld false true).manuallyPausedVideos msgVideo = true ∧
      setHas (overlayClick (pausedFinishedWorld false true) msgVideo msgWrapper
        msgWrapper).1.manuallyPausedVideos msgVideo = false) :=
  ⟨⟨by decide, by decide,
      (manuallyPaused_cleared_by_overlay_only playingFlaggedWorld msgVideo msgWrapper
        msgWrapper).1 true⟩,
    ⟨by decide,
      (manuallyPaused_cleared_by_overlay_only (pausedFinishedWorld false true) msgVideo
        msgWrapper msgWrapper).2 (by decide) (by decide)⟩⟩

end AutoVideoPlayer
